import Mathlib

/-!
# Verification of the ScavengerMine keep-alive heartbeat script

Shallow embedding of `src/tampermonkey/keepalive.js`.  The DOM is modelled
abstractly: a `Page` records the result of the three element queries the
script performs (the button list, the node list matched by the
`"div, span, li, section"` selector used by `isSolving`, and the node list
matched by the `"div, span"` selector used by `isNextChallengeReady`).
Each node carries its own `textContent` and the `textContent` of its scope
(`row.closest("div") || row.parentElement || document.body`).

Wall-clock time (`Date.now()`) is a `Nat` in milliseconds.  The JS guard
test `now() - lastReloadAt < RELOAD_GUARD_MS` is modelled with truncated
`Nat` subtraction; this agrees with JS on outcomes since a negative JS
difference and a truncated-to-zero Nat difference are both below the
positive guard constant.

The case-insensitive regular expressions of the script are implemented as
explicit scanners over character lists; `\s` and the JS `toLowerCase` are
modelled on the ASCII range, which covers every pattern the script uses.
-/

namespace Keepalive

/-- `HEARTBEAT_MS = 10 * 60_000` (line 51 of the script). -/
def HEARTBEAT_MS : Nat := 10 * 60000

/-- `BOOT_GRACE_MS = 5_000` (line 52). -/
def BOOT_GRACE_MS : Nat := 5000

/-- `START_WAIT_LOOPS = 16` (line 53). -/
def START_WAIT_LOOPS : Nat := 16

/-- `START_WAIT_STEPMS = 500` (line 54). -/
def START_WAIT_STEPMS : Nat := 500

/-- `RELOAD_GUARD_MS = 60_000` (line 55). -/
def RELOAD_GUARD_MS : Nat := 60000

/-- A `<button>` element: its `textContent` and its `disabled` property. -/
structure Button where
  text : String
  disabled : Bool
  deriving Repr, DecidableEq

/-- A text node as observed by the detectors: its own `textContent` and the
`textContent` of its scope (`closest("div") || parentElement || body`). -/
structure DomNode where
  text : String
  scopeText : String
  deriving Repr, DecidableEq

/-- One observation of the page: the three query results the script uses. -/
structure Page where
  buttons : List Button
  solvingNodes : List DomNode
  nextNodes : List DomNode
  deriving Repr, DecidableEq

/-- `p == c` at the head, continuing down both lists: does `pat` start
`hay`?  (Empty pattern always matches, as with JS `String.includes`.) -/
def startsWithList : List Char → List Char → Bool
  | _, [] => true
  | [], _ :: _ => false
  | c :: cs, p :: ps => p == c && startsWithList cs ps

/-- Substring test on character lists (JS `String.includes`). -/
def containsSub : List Char → List Char → Bool
  | [], pat => pat.isEmpty
  | c :: cs, pat => startsWithList (c :: cs) pat || containsSub cs pat

/-- `hay.toLowerCase().includes(pat.toLowerCase())` (ASCII lowering). -/
def containsCI (hay pat : String) : Bool :=
  containsSub (hay.data.map Char.toLower) (pat.data.map Char.toLower)

/-- `findBtn` (lines 60-61): the first button whose lower-cased
`textContent` contains the lower-cased search text. -/
def findBtn (page : Page) (txt : String) : Option Button :=
  page.buttons.find? (fun b => containsCI b.text txt)

/-- A regex word character (`\w`), for the `\b` boundary in the
`time left` pattern. -/
def isWordChar (c : Char) : Bool := c.isAlphanum || c == '_'

/-- A regex whitespace character (`\s`), ASCII range. -/
def isSpaceChar (c : Char) : Bool :=
  c == ' ' || c == '\t' || c == '\n' || c == '\r' ||
    c == Char.ofNat 11 || c == Char.ofNat 12

/-- Numeric value of a decimal digit character. -/
def digitVal (c : Char) : Nat := c.toNat - 48

/-- Match a literal case-insensitively at the head of the input, returning
the unconsumed rest. -/
def matchLitCI : List Char → List Char → Option (List Char)
  | [], s => some s
  | _ :: _, [] => none
  | p :: ps, c :: cs => if p.toLower == c.toLower then matchLitCI ps cs else none

/-- Match `\d{2}` at the head, returning its value (`Number` of the two
digits) and the rest. -/
def matchDigit2 : List Char → Option (Nat × List Char)
  | c1 :: c2 :: rest =>
    if c1.isDigit && c2.isDigit then
      some (digitVal c1 * 10 + digitVal c2, rest)
    else none
  | _ => none

/-- Match a literal colon at the head. -/
def matchColon : List Char → Option (List Char)
  | ':' :: rest => some rest
  | _ => none

/-- Match `\d{2}:\d{2}:\d{2}` at the head, returning the three values and
the rest. -/
def matchTime3 (s : List Char) : Option ((Nat × Nat × Nat) × List Char) := do
  let (a, r1) ← matchDigit2 s
  let r2 ← matchColon r1
  let (b, r3) ← matchDigit2 r2
  let r4 ← matchColon r3
  let (c, r5) ← matchDigit2 r4
  pure ((a, b, c), r5)

/-- `\b` holds before a word character when the previous character is
absent or not a word character. -/
def wordBoundaryBefore : Option Char → Bool
  | none => true
  | some c => !isWordChar c

/-- Attempt `/\btime left:\s*(\d{2}:\d{2}:\d{2})/i` anchored at the current
position, `prev` being the character just before it. -/
def matchTimeLeftAt (prev : Option Char) (s : List Char) :
    Option (Nat × Nat × Nat) :=
  if wordBoundaryBefore prev then do
    let r1 ← matchLitCI "time left:".data s
    let (t, _) ← matchTime3 (r1.dropWhile isSpaceChar)
    pure t
  else none

/-- Scan for the first position where the `time left` pattern matches
(regex `exec` semantics). -/
def scanTimeLeft : Option Char → List Char → Option (Nat × Nat × Nat)
  | _, [] => none
  | prev, c :: cs =>
    match matchTimeLeftAt prev (c :: cs) with
    | some t => some t
    | none => scanTimeLeft (some c) cs

/-- `/\btime left:\s*(\d{2}:\d{2}:\d{2})/i.exec(txt)` followed by
`m[1].split(":").map(Number)` (lines 72-74). -/
def timeLeftMatch (s : String) : Option (Nat × Nat × Nat) :=
  scanTimeLeft none s.data

/-- Attempt `/next challenge in[:\s]*(\d{2}:\d{2}:\d{2}(?::\d{2})?)/i`
anchored at the current position, returning the list of numeric parts
(three, or four when the optional `:\d{2}` group matches). -/
def matchNextAt (s : List Char) : Option (List Nat) := do
  let r1 ← matchLitCI "next challenge in".data s
  let r2 := r1.dropWhile (fun c => c == ':' || isSpaceChar c)
  let ((a, b, c), r3) ← matchTime3 r2
  match r3 with
  | ':' :: r4 =>
    match matchDigit2 r4 with
    | some (d, _) => pure [a, b, c, d]
    | none => pure [a, b, c]
  | _ => pure [a, b, c]

/-- Scan for the first position where the `next challenge in` pattern
matches. -/
def scanNext : List Char → Option (List Nat)
  | [] => none
  | c :: cs =>
    match matchNextAt (c :: cs) with
    | some t => some t
    | none => scanNext cs

/-- The regex match of line 94 followed by
`m[1].split(":").map(Number)` (line 97). -/
def nextChallengeMatch (s : String) : Option (List Nat) :=
  scanNext s.data

/-- The `for (const row of rows)` loop of `isSolving` (lines 69-80): an
early `return true` when a row's scope parses to a positive `time left`,
and `return true` after the loop as well (lines 81-82). -/
def solvingLoop : List DomNode → Bool
  | [] => true
  | row :: rest =>
    match timeLeftMatch row.scopeText with
    | some (h, m2, s) => if h + m2 + s > 0 then true else solvingLoop rest
    | none => solvingLoop rest

/-- `isSolving` (lines 64-83): filter nodes whose text matches
`/finding a solution/i`; `false` when none match, otherwise the row loop. -/
def isSolving (page : Page) : Bool :=
  let rows := page.solvingNodes.filter
    (fun el => containsCI el.text "finding a solution")
  if rows.isEmpty then false else solvingLoop rows

/-- The `for (const row of rows)` loop of `isNextChallengeReady`
(lines 90-105): `return true` when a row's scope parses to an all-zero
countdown, `return false` after the loop. -/
def nextReadyLoop : List DomNode → Bool
  | [] => false
  | row :: rest =>
    match nextChallengeMatch row.scopeText with
    | some parts =>
      if parts.all (fun p => p == 0) then true else nextReadyLoop rest
    | none => nextReadyLoop rest

/-- `isNextChallengeReady` (lines 85-107). -/
def isNextChallengeReady (page : Page) : Bool :=
  let rows := page.nextNodes.filter
    (fun el => containsCI el.text "next challenge in")
  if rows.isEmpty then false else nextReadyLoop rows

/-- Result of `tryStart`: whether the start button was clicked, the
returned confirmation flag, and how many 500 ms waits were performed. -/
structure TryStartResult where
  clicked : Bool
  confirmed : Bool
  waits : Nat
  deriving Repr, DecidableEq

/-- The confirmation poll of `tryStart` (lines 116-122): `obs i` is the
page observed after the `(i+1)`-th 500 ms wait; returns the confirmation
flag and the number of waits performed. -/
def startWaitLoop (obs : Nat → Page) : Nat → Nat → Bool × Nat
  | _, 0 => (false, 0)
  | i, fuel + 1 =>
    if (findBtn (obs i) "stop session").isSome then (true, 1)
    else
      let r := startWaitLoop obs (i + 1) fuel
      (r.1, r.2 + 1)

/-- `tryStart` (lines 109-125): absent or disabled start button returns
`false` immediately; otherwise click and poll `START_WAIT_LOOPS` times. -/
def tryStart (page : Page) (obs : Nat → Page) : TryStartResult :=
  match findBtn page "start session" with
  | none => ⟨false, false, 0⟩
  | some b =>
    if b.disabled then ⟨false, false, 0⟩
    else
      let r := startWaitLoop obs 0 START_WAIT_LOOPS
      ⟨true, r.1, r.2⟩

/-- Result of `safeReload`: whether `location.reload()` was invoked and the
resulting `lastReloadAt`. -/
structure ReloadResult where
  reloaded : Bool
  lastReloadAt : Nat
  deriving Repr, DecidableEq

/-- `safeReload` (lines 127-135): guard on `now() - lastReloadAt`; a
blocked request leaves the timestamp unchanged, a performed reload sets it
to the current time. -/
def safeReload (t lastReloadAt : Nat) : ReloadResult :=
  if t - lastReloadAt < RELOAD_GUARD_MS then ⟨false, lastReloadAt⟩
  else ⟨true, t⟩

/-- `let lastReloadAt = 0` (line 57). -/
def lastReloadAtInit : Nat := 0

/-- Result of one heartbeat tick: whether `tryStart` was invoked, whether
the start button was clicked, whether a reload was performed, and the
resulting `lastReloadAt`. -/
structure HeartbeatResult where
  triedStart : Bool
  clicked : Bool
  reloaded : Bool
  lastReloadAt : Nat
  deriving Repr, DecidableEq

/-- `heartbeat` (lines 137-165): `page` is the observation at the start of
the tick, `obs` the observations during the confirmation poll, `t` the
current time at the reload decision and `last` the incoming
`lastReloadAt`. -/
def heartbeat (page : Page) (obs : Nat → Page) (t last : Nat) :
    HeartbeatResult :=
  if (findBtn page "stop session").isSome then
    ⟨false, false, false, last⟩
  else if isNextChallengeReady page then
    let r := tryStart page obs
    if r.confirmed then ⟨true, r.clicked, false, last⟩
    else
      let s := safeReload t last
      ⟨true, r.clicked, s.reloaded, s.lastReloadAt⟩
  else if isSolving page then
    ⟨false, false, false, last⟩
  else
    let r := tryStart page obs
    if r.confirmed then ⟨true, r.clicked, false, last⟩
    else
      let s := safeReload t last
      ⟨true, r.clicked, s.reloaded, s.lastReloadAt⟩

/-- Thread `safeReload` through a list of request times, collecting the
times at which a reload was actually performed. -/
def reloadTimes : List Nat → Nat → List Nat
  | [], _ => []
  | t :: ts, last =>
    let r := safeReload t last
    if r.reloaded then t :: reloadTimes ts r.lastReloadAt
    else reloadTimes ts r.lastReloadAt

/-- Thread `safeReload` through a list of request times, collecting each
request's outcome. -/
def runReloads : List Nat → Nat → List Bool
  | [], _ => []
  | t :: ts, last =>
    let r := safeReload t last
    r.reloaded :: runReloads ts r.lastReloadAt

/-- A fixture with no buttons and no matching text at all. -/
def emptyPage : Page := ⟨[], [], []⟩

/-- A fixture showing a `Stop Session` button. -/
def stopPage : Page := ⟨[⟨"Stop Session", false⟩], [], []⟩

/-- A fixture showing an enabled `Start Session` button. -/
def startPage : Page := ⟨[⟨"Start Session", false⟩], [], []⟩

/-- A fixture showing a disabled `Start Session` button. -/
def disabledStartPage : Page := ⟨[⟨"Start Session", true⟩], [], []⟩

/-- A fixture where the next challenge is ready (all-zero countdown) while
a solving indicator with positive remaining time is present. -/
def readySolvingPage : Page :=
  { buttons := [],
    solvingNodes :=
      [⟨"Finding a solution", "Finding a solution Time left: 00:10:00"⟩],
    nextNodes :=
      [⟨"Next challenge in", "Next challenge in: 00:00:00"⟩] }

/-! ## Helper lemmas -/

/-- The row loop of `isSolving` always returns `true`: either a row has a
positive countdown (early return) or the loop falls through to the final
`return true`. -/
theorem solvingLoop_true (l : List DomNode) : solvingLoop l = true := by
  induction l with
  | nil => rfl
  | cons row rest ih =>
    unfold solvingLoop
    cases ht : timeLeftMatch row.scopeText with
    | none => simpa using ih
    | some t =>
      obtain ⟨a, b, c⟩ := t
      by_cases hp : a + b + c > 0 <;> simp [hp, ih]

/-- A blocked `safeReload` returns `false` and keeps the timestamp. -/
theorem safeReload_blocked (t last : Nat) (h : t - last < RELOAD_GUARD_MS) :
    safeReload t last = ⟨false, last⟩ := by
  simp [safeReload, h]

/-- A performed `safeReload` sets the timestamp to the current time, which
exceeds the previous value by at least the guard window. -/
theorem safeReload_performed (t last : Nat)
    (h : (safeReload t last).reloaded = true) :
    last + RELOAD_GUARD_MS ≤ t ∧ (safeReload t last).lastReloadAt = t := by
  by_cases hg : t - last < RELOAD_GUARD_MS
  · rw [safeReload_blocked t last hg] at h
    simp at h
  · refine ⟨?_, by simp [safeReload, hg]⟩
    simp [RELOAD_GUARD_MS] at hg ⊢
    omega

/-- `safeReload` never decreases the timestamp. -/
theorem safeReload_mono (t last : Nat) :
    last ≤ (safeReload t last).lastReloadAt := by
  by_cases hg : t - last < RELOAD_GUARD_MS
  · simp [safeReload, hg]
  · simp only [safeReload, hg, if_false]
    simp [RELOAD_GUARD_MS] at hg
    omega

/-- Consecutive performed reload times are separated by at least the guard
window, and the first one exceeds the incoming timestamp by at least the
guard window. -/
theorem reloadTimes_sep (ts : List Nat) : ∀ last : Nat,
    List.Chain' (fun a b => a + RELOAD_GUARD_MS ≤ b) (reloadTimes ts last) ∧
    ∀ x ∈ (reloadTimes ts last).head?, last + RELOAD_GUARD_MS ≤ x := by
  induction ts with
  | nil => intro last; simp [reloadTimes]
  | cons t ts ih =>
    intro last
    by_cases hg : t - last < RELOAD_GUARD_MS
    · have he : safeReload t last = ⟨false, last⟩ := safeReload_blocked t last hg
      simpa [reloadTimes, he] using ih last
    · have he : safeReload t last = ⟨true, t⟩ := by simp [safeReload, hg]
      have hsep : last + RELOAD_GUARD_MS ≤ t := by
        simp [RELOAD_GUARD_MS] at hg ⊢
        omega
      obtain ⟨hc, hh⟩ := ih t
      refine ⟨?_, ?_⟩
      · simp only [reloadTimes, he]
        exact List.chain'_cons'.mpr ⟨hh, hc⟩
      · simp only [reloadTimes, he, List.head?_cons]
        simpa using hsep

/-- The confirmation poll performs at most `fuel` waits. -/
theorem startWaitLoop_waits_le (obs : Nat → Page) :
    ∀ (fuel i : Nat), (startWaitLoop obs i fuel).2 ≤ fuel := by
  intro fuel
  induction fuel with
  | zero => intro i; simp [startWaitLoop]
  | succ n ih =>
    intro i
    unfold startWaitLoop
    by_cases hs : (findBtn (obs i) "stop session").isSome
    · rw [if_pos hs]
      exact Nat.succ_le_succ (Nat.zero_le n)
    · rw [if_neg hs]
      exact Nat.succ_le_succ (ih (i + 1))

/-- When no poll observation shows a stop button, the poll exhausts its
fuel and reports failure. -/
theorem startWaitLoop_exhaust (obs : Nat → Page) :
    ∀ (fuel i : Nat),
      (∀ j, i ≤ j → j < i + fuel → findBtn (obs j) "stop session" = none) →
      startWaitLoop obs i fuel = (false, fuel) := by
  intro fuel
  induction fuel with
  | zero => intro i _; rfl
  | succ n ih =>
    intro i h
    have hi : findBtn (obs i) "stop session" = none :=
      h i (Nat.le_refl i) (by omega)
    unfold startWaitLoop
    simp only [hi, Option.isSome_none, Bool.false_eq_true, if_false]
    rw [ih (i + 1) (fun j h1 h2 => h j (by omega) (by omega))]

/-- A list each of whose elements fails a Boolean predicate filters to the
empty list. -/
theorem filter_false_nil {α : Type} (p : α → Bool) (l : List α)
    (h : ∀ x ∈ l, p x = false) : l.filter p = [] := by
  induction l with
  | nil => rfl
  | cons a l ih =>
    have ha := h a (List.mem_cons_self a l)
    simp only [List.filter_cons, ha, Bool.false_eq_true, if_false]
    exact ih (fun x hx => h x (List.mem_cons_of_mem a hx))

/-! ## Claims -/

/-- Claim C1 (corrected), counterexample to the claim as stated: with the
initial state (`lastReloadAt = 0`), a reload requested at `t = 0` is NOT
allowed — the guard test `0 - 0 < 60000` blocks it — contradicting the
claimed "a request at t=0 is allowed (timestamp set to 0)". -/
theorem C1_counterexample :
    ¬ ((safeReload 0 lastReloadAtInit).reloaded = true) := by decide

/-- Claim C1 (amended): `safeReload` never performs two reloads within the
guard window — over any sequence of request times, consecutive performed
reloads are at least `RELOAD_GUARD_MS` apart; a blocked request skips
without updating the timestamp; and since the timestamp initializes to 0,
the earliest allowed request is at `t = RELOAD_GUARD_MS`: requests at
t=60000 (allowed), t=90000 (blocked, 30 s later) and t=121000 (allowed,
61 s later) behave as in the spec's example shifted by one guard window. -/
theorem C1_reload_guard :
    (∀ (ts : List Nat) (last : Nat),
      List.Chain' (fun a b => a + RELOAD_GUARD_MS ≤ b) (reloadTimes ts last)) ∧
    (∀ t last : Nat, t - last < RELOAD_GUARD_MS →
      safeReload t last = ⟨false, last⟩) ∧
    runReloads [60000, 90000, 121000] lastReloadAtInit =
      [true, false, true] := by
  refine ⟨fun ts last => (reloadTimes_sep ts last).1,
    fun t last h => safeReload_blocked t last h, by decide⟩

/-- Witness for C1: the guard-chain property at the example request list,
and the blocked request at t=30000 from a fresh reload at time 0. -/
theorem C1_reload_guard_witness :
    List.Chain' (fun a b => a + RELOAD_GUARD_MS ≤ b)
      (reloadTimes [60000, 90000, 121000] 0) ∧
    safeReload 30000 0 = ⟨false, 0⟩ :=
  ⟨C1_reload_guard.1 [60000, 90000, 121000] 0,
    C1_reload_guard.2.1 30000 0 (by decide)⟩

/-- Claim C2: whenever a button whose label contains "stop session" is
present, the heartbeat performs no click, no reload, does not invoke
`tryStart`, and leaves the timestamp unchanged. -/
theorem C2_stop_no_action (page : Page) (obs : Nat → Page) (t last : Nat)
    (h : (findBtn page "stop session").isSome = true) :
    heartbeat page obs t last = ⟨false, false, false, last⟩ := by
  simp [heartbeat, h]

/-- Witness for C2 at a concrete page showing a `Stop Session` button. -/
theorem C2_stop_no_action_witness :
    (findBtn stopPage "stop session").isSome = true ∧
    heartbeat stopPage (fun _ => emptyPage) 5 7 = ⟨false, false, false, 7⟩ :=
  ⟨by decide, C2_stop_no_action stopPage (fun _ => emptyPage) 5 7 (by decide)⟩

/-- Claim C3: with no stop button and an all-zero "next challenge in"
countdown, the heartbeat invokes `tryStart` — with no hypothesis on
`isSolving`, so a simultaneously present solving indicator is bypassed. -/
theorem C3_ready_overrides_solving (page : Page) (obs : Nat → Page)
    (t last : Nat) (h1 : findBtn page "stop session" = none)
    (h2 : isNextChallengeReady page = true) :
    (heartbeat page obs t last).triedStart = true := by
  unfold heartbeat
  simp only [h1, Option.isSome_none, Bool.false_eq_true, if_false, h2,
    if_true]
  by_cases hc : (tryStart page obs).confirmed = true <;> simp [hc]

/-- Witness for C3 at a page where the countdown is all-zero AND the
solving indicator is present with positive remaining time. -/
theorem C3_ready_overrides_solving_witness :
    findBtn readySolvingPage "stop session" = none ∧
    isNextChallengeReady readySolvingPage = true ∧
    isSolving readySolvingPage = true ∧
    (heartbeat readySolvingPage (fun _ => emptyPage) 0 0).triedStart = true :=
  ⟨by decide, by decide, by decide,
    C3_ready_overrides_solving readySolvingPage (fun _ => emptyPage) 0 0
      (by decide) (by decide)⟩

/-- Claim C4: whenever `tryStart` confirms the start (a stop button shows
up within the poll budget), the heartbeat performs no reload that tick, on
every path. -/
theorem C4_confirmed_no_reload (page : Page) (obs : Nat → Page)
    (t last : Nat) (h : (tryStart page obs).confirmed = true) :
    (heartbeat page obs t last).reloaded = false := by
  unfold heartbeat
  by_cases hs : (findBtn page "stop session").isSome <;> simp [hs, h]
  by_cases hn : isNextChallengeReady page <;> simp [hn, h]
  by_cases hv : isSolving page <;> simp [hv, h]

/-- Witness for C4: the start button clicked at `startPage`, a stop button
appearing at the first poll. -/
theorem C4_confirmed_no_reload_witness :
    (tryStart startPage (fun _ => stopPage)).confirmed = true ∧
    (heartbeat startPage (fun _ => stopPage) 0 0).reloaded = false :=
  ⟨by decide,
    C4_confirmed_no_reload startPage (fun _ => stopPage) 0 0 (by decide)⟩

/-- Claim C5: with no stop button, no all-zero countdown and no solving
indicator, the heartbeat invokes `tryStart`, and when the start is not
confirmed the tick ends with exactly the `safeReload` decision (reload
performed if and only if the guard window has elapsed). -/
theorem C5_default_path (page : Page) (obs : Nat → Page) (t last : Nat)
    (h1 : findBtn page "stop session" = none)
    (h2 : isNextChallengeReady page = false)
    (h3 : isSolving page = false) :
    (heartbeat page obs t last).triedStart = true ∧
    ((tryStart page obs).confirmed = false →
      heartbeat page obs t last =
        ⟨true, (tryStart page obs).clicked, (safeReload t last).reloaded,
          (safeReload t last).lastReloadAt⟩) := by
  unfold heartbeat
  simp only [h1, Option.isSome_none, Bool.false_eq_true, if_false, h2, h3]
  constructor
  · by_cases hc : (tryStart page obs).confirmed = true <;> simp [hc]
  · intro hc
    simp [hc]

/-- Witness for C5 at the empty page (no buttons, no indicator text), at a
time where the guard has elapsed, so the reload is performed. -/
theorem C5_default_path_witness :
    findBtn emptyPage "stop session" = none ∧
    isNextChallengeReady emptyPage = false ∧
    isSolving emptyPage = false ∧
    (tryStart emptyPage (fun _ => emptyPage)).confirmed = false ∧
    (heartbeat emptyPage (fun _ => emptyPage) 60000 0).triedStart = true ∧
    heartbeat emptyPage (fun _ => emptyPage) 60000 0 =
      ⟨true, false, true, 60000⟩ := by
  have h := C5_default_path emptyPage (fun _ => emptyPage) 60000 0
    (by decide) (by decide) (by decide)
  exact ⟨by decide, by decide, by decide, by decide, h.1,
    by rw [h.2 (by decide)]; decide⟩

/-- Claim C6: `isSolving` returns `true` exactly when at least one node's
text matches "finding a solution" (case-insensitively), independently of
whether any scope yields a parseable countdown; it returns `false` only
when no node matches. -/
theorem C6_isSolving_any_match (page : Page) :
    isSolving page =
      !(page.solvingNodes.filter
          (fun el => containsCI el.text "finding a solution")).isEmpty := by
  unfold isSolving
  cases hr : (page.solvingNodes.filter
      (fun el => containsCI el.text "finding a solution")).isEmpty <;>
    simp [hr, solvingLoop_true]

/-- Claim C7: the last-reload timestamp initializes to 0, is never
decreased by `safeReload` or by a heartbeat tick, and every performed
reload raises it to the current time, at least one guard window above the
previous value. -/
theorem C7_timestamp_monotone :
    lastReloadAtInit = 0 ∧
    (∀ t last : Nat, last ≤ (safeReload t last).lastReloadAt) ∧
    (∀ t last : Nat, (safeReload t last).reloaded = true →
      (safeReload t last).lastReloadAt = t ∧
        last + RELOAD_GUARD_MS ≤ (safeReload t last).lastReloadAt) ∧
    (∀ (page : Page) (obs : Nat → Page) (t last : Nat),
      last ≤ (heartbeat page obs t last).lastReloadAt) := by
  refine ⟨rfl, safeReload_mono, ?_, ?_⟩
  · intro t last h
    obtain ⟨hsep, hset⟩ := safeReload_performed t last h
    exact ⟨hset, by rw [hset]; exact hsep⟩
  · intro page obs t last
    unfold heartbeat
    by_cases hs : (findBtn page "stop session").isSome <;> simp [hs]
    by_cases hn : isNextChallengeReady page <;> simp [hn]
    · by_cases hc : (tryStart page obs).confirmed = true <;>
        simp [hc, safeReload_mono]
    · by_cases hv : isSolving page <;> simp [hv]
      by_cases hc : (tryStart page obs).confirmed = true <;>
        simp [hc, safeReload_mono]

/-- Witness for C7: a performed reload at t=60000 from the initial state
raises the timestamp from 0 to 60000. -/
theorem C7_timestamp_monotone_witness :
    (safeReload 60000 0).lastReloadAt = 60000 ∧
    0 + RELOAD_GUARD_MS ≤ (safeReload 60000 0).lastReloadAt :=
  C7_timestamp_monotone.2.2.1 60000 0 (by decide)

/-- Claim C8: the confirmation poll is bounded — `tryStart` performs at
most `START_WAIT_LOOPS = 16` waits of `START_WAIT_STEPMS = 500` ms each
(at most 8000 ms in total), and when no poll observation shows a stop
button it returns unconfirmed. -/
theorem C8_bounded_poll (page : Page) (obs : Nat → Page) :
    START_WAIT_LOOPS = 16 ∧ START_WAIT_STEPMS = 500 ∧
    (tryStart page obs).waits ≤ START_WAIT_LOOPS ∧
    (tryStart page obs).waits * START_WAIT_STEPMS ≤ 8000 ∧
    ((∀ i, i < START_WAIT_LOOPS → findBtn (obs i) "stop session" = none) →
      (tryStart page obs).confirmed = false) := by
  have hwle : (tryStart page obs).waits ≤ START_WAIT_LOOPS := by
    unfold tryStart
    cases hf : findBtn page "start session" with
    | none => simp [START_WAIT_LOOPS]
    | some b =>
      by_cases hd : b.disabled = true <;> simp [hd]
      exact startWaitLoop_waits_le obs _ 0
  refine ⟨rfl, rfl, hwle, ?_, ?_⟩
  · calc (tryStart page obs).waits * START_WAIT_STEPMS
        ≤ START_WAIT_LOOPS * START_WAIT_STEPMS :=
          Nat.mul_le_mul_right _ hwle
      _ = 8000 := by decide
  · intro h
    unfold tryStart
    cases hf : findBtn page "start session" with
    | none => rfl
    | some b =>
      by_cases hd : b.disabled = true <;> simp [hd]
      rw [startWaitLoop_exhaust obs START_WAIT_LOOPS 0
        (fun j h1 h2 => h j (by omega))]

/-- Witness for C8: polling against pages that never show a stop button
exhausts the 16 waits and reports failure. -/
theorem C8_bounded_poll_witness :
    (tryStart startPage (fun _ => emptyPage)).waits ≤ START_WAIT_LOOPS ∧
    (tryStart startPage (fun _ => emptyPage)).confirmed = false :=
  ⟨(C8_bounded_poll startPage (fun _ => emptyPage)).2.2.1,
    (C8_bounded_poll startPage (fun _ => emptyPage)).2.2.2.2
      (fun _ _ => rfl)⟩

/-- Claim C9: every absence is an ordinary negative branch — a missing
start button makes `tryStart` return `false` with no click and no wait,
text with no "finding a solution" match makes `isSolving` return `false`,
text with no "next challenge in" match makes `isNextChallengeReady` return
`false` — and a reload happens in a tick only when `tryStart` was
unconfirmed and the guard window had elapsed (the reload-or-skip
decision); no other outcome exists. -/
theorem C9_negative_branches :
    (∀ (page : Page) (obs : Nat → Page),
      findBtn page "start session" = none →
        tryStart page obs = ⟨false, false, 0⟩) ∧
    (∀ page : Page,
      (∀ el ∈ page.solvingNodes,
        containsCI el.text "finding a solution" = false) →
      isSolving page = false) ∧
    (∀ page : Page,
      (∀ el ∈ page.nextNodes,
        containsCI el.text "next challenge in" = false) →
      isNextChallengeReady page = false) ∧
    (∀ (page : Page) (obs : Nat → Page) (t last : Nat),
      (heartbeat page obs t last).reloaded = true →
        (tryStart page obs).confirmed = false ∧
          RELOAD_GUARD_MS ≤ t - last) := by
  refine ⟨?_, ?_, ?_, ?_⟩
  · intro page obs h
    simp [tryStart, h]
  · intro page h
    unfold isSolving
    rw [filter_false_nil _ _ h]
    rfl
  · intro page h
    unfold isNextChallengeReady
    rw [filter_false_nil _ _ h]
    rfl
  · intro page obs t last h
    by_cases hg : t - last < RELOAD_GUARD_MS
    · have he : safeReload t last = ⟨false, last⟩ := safeReload_blocked t last hg
      unfold heartbeat at h
      by_cases hs : (findBtn page "stop session").isSome <;> simp [hs] at h
      by_cases hn : isNextChallengeReady page <;> simp [hn] at h
      · by_cases hc : (tryStart page obs).confirmed = true <;>
          simp [hc, he] at h
      · by_cases hv : isSolving page <;> simp [hv] at h
        by_cases hc : (tryStart page obs).confirmed = true <;>
          simp [hc, he] at h
    · refine ⟨?_, by omega⟩
      unfold heartbeat at h
      by_cases hs : (findBtn page "stop session").isSome <;> simp [hs] at h
      by_cases hn : isNextChallengeReady page <;> simp [hn] at h
      · by_cases hc : (tryStart page obs).confirmed = true <;>
          simp [hc] at h ⊢
      · by_cases hv : isSolving page <;> simp [hv] at h
        by_cases hc : (tryStart page obs).confirmed = true <;>
          simp [hc] at h ⊢

/-- Witness for C9: each negative branch at a concrete empty observation,
and a performed reload at t=60000 implying the start was unconfirmed. -/
theorem C9_negative_branches_witness :
    tryStart emptyPage (fun _ => emptyPage) = ⟨false, false, 0⟩ ∧
    isSolving emptyPage = false ∧
    isNextChallengeReady emptyPage = false ∧
    ((tryStart emptyPage (fun _ => emptyPage)).confirmed = false ∧
      RELOAD_GUARD_MS ≤ 60000 - 0) :=
  ⟨C9_negative_branches.1 emptyPage (fun _ => emptyPage) rfl,
    C9_negative_branches.2.1 emptyPage (fun el h => nomatch h),
    C9_negative_branches.2.2.1 emptyPage (fun el h => nomatch h),
    C9_negative_branches.2.2.2 emptyPage (fun _ => emptyPage) 60000 0
      (by decide)⟩

/-- Claim C10: a disabled start button is treated exactly like an absent
one — `tryStart` returns `false` immediately, with no click and no wait,
the same result as when no start button is found. -/
theorem C10_disabled_start (page : Page) (obs : Nat → Page) (b : Button)
    (h1 : findBtn page "start session" = some b)
    (h2 : b.disabled = true) :
    tryStart page obs = ⟨false, false, 0⟩ ∧
    (∀ (q : Page) (o : Nat → Page), findBtn q "start session" = none →
      tryStart q o = ⟨false, false, 0⟩) := by
  constructor
  · simp [tryStart, h1, h2]
  · intro q o hq
    simp [tryStart, hq]

/-- Witness for C10 at a page with a disabled `Start Session` button. -/
theorem C10_disabled_start_witness :
    tryStart disabledStartPage (fun _ => stopPage) = ⟨false, false, 0⟩ :=
  (C10_disabled_start disabledStartPage (fun _ => stopPage)
    ⟨"Start Session", true⟩ (by decide) rfl).1

end Keepalive
